import Mathlib

/-!
Verification development for the API Rate Limit Monitor (`monitor.py`).

The Python source is shallowly embedded: decoded JSON response bodies and the
persisted document become an inductive `Json` type, Python numbers become `ℚ`,
dictionaries become association lists, raised exceptions become `Except`, and
the external collaborators (the HTTP fetch and the two chat clients) become
explicit outcome parameters.  Each definition is translated from the
corresponding place in `monitor.py`; line numbers refer to that file.
-/

namespace RateLimitMonitor

/-- Decoded JSON values (response bodies and the persisted `apis.json`
document).  Python numbers are modelled as `ℚ`; arrays and booleans do not
occur in any monitored shape and are omitted. -/
inductive Json where
  | null
  | num (q : ℚ)
  | str (s : String)
  | obj (fields : List (String × Json))

/-- Lookup of a key in a JSON object (Python `dict` access; keys are unique in
a decoded Python dict, the association list keeps first-wins lookup). -/
def jfind (fields : List (String × Json)) (k : String) : Option Json :=
  (fields.find? (fun p => p.1 == k)).map Prod.snd

/-- Python `dict.get(k)`: an absent key and a key mapped to JSON `null` both
yield Python `None`, so both are collapsed to `none`. -/
def jget (fields : List (String × Json)) (k : String) : Option Json :=
  match jfind fields k with
  | some Json.null => none
  | some v => some v
  | none => none

/-- Python substring test `k in s` for the fixed non-empty needles used by the
extractor. -/
def pyInStr (k s : String) : Bool :=
  (s.splitOn k).length != 1

/-- Python membership `k in j` on a decoded JSON value: key test on a dict,
substring test on a string, `TypeError` (modelled as `Except.error`) on the
non-container values. -/
def pyContains (j : Json) (k : String) : Except Unit Bool :=
  match j with
  | Json.obj fields => Except.ok (jfind fields k).isSome
  | Json.str s => Except.ok (pyInStr k s)
  | _ => Except.error ()

/-- Python subscript `j[k]`: value on a dict with the key present, `KeyError`
when absent, `TypeError` on non-dict values. -/
def pyGetItem (j : Json) (k : String) : Except Unit Json :=
  match j with
  | Json.obj fields =>
    match jfind fields k with
    | some v => Except.ok v
    | none => Except.error ()
  | _ => Except.error ()

/-- Python method call `j.get(k)`: `dict.get` on a dict (absent and `null`
both give `None`), `AttributeError` on anything else. -/
def pyGetAttr (j : Json) (k : String) : Except Unit (Option Json) :=
  match j with
  | Json.obj fields => Except.ok (jget fields k)
  | _ => Except.error ()

/-- ASCII lowercasing of a string, written over the character list so that it
evaluates by definitional reduction. -/
def lowerString (s : String) : String :=
  String.mk (s.data.map Char.toLower)

/-- Case-insensitive response-header lookup (`requests` exposes response
headers as a `CaseInsensitiveDict`, which compares keys case-insensitively). -/
def hlookup (hs : List (String × String)) (key : String) : Option String :=
  (hs.find? (fun p => lowerString p.1 == lowerString key)).map Prod.snd

/-- `response.headers.get('Content-Type', '')` (monitor.py line 106). -/
def getContentType (hs : List (String × String)) : String :=
  (hlookup hs "Content-Type").getD ""

/-- Python `s.startswith(pre)`, written over character lists so that it
evaluates by definitional reduction. -/
def strStartsWith (s pre : String) : Bool :=
  pre.data.isPrefixOf s.data

/-- The three known remaining/limit header-name pairs, in priority order
(monitor.py lines 93-97). -/
def headerVariants : List (String × String) :=
  [("X-RateLimit-Remaining", "X-RateLimit-Limit"),
   ("RateLimit-Remaining", "RateLimit-Limit"),
   ("X-Rate-Limit-Remaining", "X-Rate-Limit-Limit")]

/-- Decimal value of a digit character. -/
def digitVal (c : Char) : Option Nat :=
  if c.isDigit then some (c.toNat - 48) else none

/-- Accumulator loop of the decimal parser. -/
def parseDigitsAux : List Char → Nat → Option Nat
  | [], acc => some acc
  | c :: cs, acc =>
    match digitVal c with
    | some d => parseDigitsAux cs (acc * 10 + d)
    | none => none

/-- A non-empty all-digit character list as a number. -/
def parseDigits : List Char → Option Nat
  | [] => none
  | cs => parseDigitsAux cs 0

/-- Python `int(s)` on an optional sign followed by decimal digits (`none`
models a raised `ValueError`; the whitespace and underscore forms `int` also
accepts are not used by any monitored API shape). -/
def parsePyInt (s : String) : Option Int :=
  match s.data with
  | '-' :: ds => (parseDigits ds).map (fun n => -(n : Int))
  | '+' :: ds => (parseDigits ds).map (fun n => (n : Int))
  | ds => (parseDigits ds).map (fun n => (n : Int))

/-- `int(...)` applied to the two header values (monitor.py lines 101-102);
Python evaluates the remaining value first, and a `ValueError` on either one
aborts the whole check. -/
def parseIntPair (rs ls : String) : Except Unit (Option (Int × Int)) :=
  match parsePyInt rs with
  | some r =>
    match parsePyInt ls with
    | some l => Except.ok (some (r, l))
    | none => Except.error ()
  | none => Except.error ()

/-- The header loop (monitor.py lines 99-103): the first variant pair whose
two headers are both present is parsed, and the loop stops there. -/
def tryHeaderVariants (hs : List (String × String)) :
    List (String × String) → Except Unit (Option (Int × Int))
  | [] => Except.ok none
  | (rh, lh) :: rest =>
    match hlookup hs rh, hlookup hs lh with
    | some rs, some ls => parseIntPair rs ls
    | _, _ => tryHeaderVariants hs rest

/-- The `resources` scan (monitor.py lines 113-117): take the first value
containing both `remaining` and `limit` keys. -/
def scanResources : List (String × Json) → Except Unit (Option Json × Option Json)
  | [] => Except.ok (none, none)
  | (_, v) :: rest =>
    match pyContains v "remaining" with
    | Except.error e => Except.error e
    | Except.ok hr =>
      match pyContains v "limit" with
      | Except.error e => Except.error e
      | Except.ok hl =>
        if hr && hl then
          match pyGetAttr v "remaining" with
          | Except.error e => Except.error e
          | Except.ok r =>
            match pyGetAttr v "limit" with
            | Except.error e => Except.error e
            | Except.ok l => Except.ok (r, l)
        else scanResources rest

/-- The JSON-body strategy (monitor.py lines 107-117): a top-level `rate`
object is consulted first; the `resources` scan runs only in the `elif`
branch, i.e. when `rate` is absent. -/
def extractFromJson (data : Json) : Except Unit (Option Json × Option Json) :=
  match pyContains data "rate" with
  | Except.error e => Except.error e
  | Except.ok true =>
    match pyGetItem data "rate" with
    | Except.error e => Except.error e
    | Except.ok rate =>
      match pyGetAttr rate "remaining" with
      | Except.error e => Except.error e
      | Except.ok r =>
        match pyGetAttr rate "limit" with
        | Except.error e => Except.error e
        | Except.ok l => Except.ok (r, l)
  | Except.ok false =>
    match pyContains data "resources" with
    | Except.error e => Except.error e
    | Except.ok true =>
      match pyGetItem data "resources" with
      | Except.error e => Except.error e
      | Except.ok resv =>
        match resv with
        | Json.obj fields => scanResources fields
        | _ => Except.error ()
    | Except.ok false => Except.ok (none, none)

/-- The dictionary returned by `check_rate_limit` (monitor.py lines 120-124).
The source stores whatever values were extracted, so the fields are raw JSON
values. -/
structure CheckResult where
  remaining : Json
  limit : Json
  usage : ℚ

/-- The usage expression of monitor.py line 123:
`(limit - remaining) / limit if limit > 0 else 0`. -/
def computeUsage (remaining limit : ℚ) : ℚ :=
  if 0 < limit then (limit - remaining) / limit else 0

/-- Building the result dict (monitor.py lines 119-124).  `limit > 0` is
evaluated first and raises on a non-number; the subtraction touches
`remaining` only in the positive branch; when both values are not `None` and
`limit <= 0` the usage is the constant `0` and `remaining` is stored as-is. -/
def computeResult (rem lim : Option Json) : Except Unit (Option CheckResult) :=
  match rem, lim with
  | some r, some (Json.num ln) =>
    if 0 < ln then
      match r with
      | Json.num rn => Except.ok (some ⟨r, Json.num ln, computeUsage rn ln⟩)
      | _ => Except.error ()
    else Except.ok (some ⟨r, Json.num ln, 0⟩)
  | some _, some _ => Except.error ()
  | _, _ => Except.ok none

/-- A fetched HTTP response after `raise_for_status()`: its headers and the
outcome of `response.json()` (`Except.error` models a JSON decode failure). -/
structure HttpResponse where
  headers : List (String × String)
  body : Except Unit Json

/-- The extraction phase of `check_rate_limit` (monitor.py lines 88-117):
header variants first; the body is decoded only when no pair matched and the
content type starts with `application/json`. -/
def extractPair (r : HttpResponse) : Except Unit (Option Json × Option Json) :=
  match tryHeaderVariants r.headers headerVariants with
  | Except.error e => Except.error e
  | Except.ok (some (rn, ln)) => Except.ok (some (Json.num rn), some (Json.num ln))
  | Except.ok none =>
    if strStartsWith (getContentType r.headers) "application/json" then
      match r.body with
      | Except.error e => Except.error e
      | Except.ok data => extractFromJson data
    else Except.ok (none, none)

/-- `check_rate_limit` (monitor.py lines 82-128).  The argument is the fetch
outcome: `none` models `requests.get` or `raise_for_status` raising (network
failure, timeout, non-2xx).  The surrounding `try/except` turns every raised
error into a `None` return. -/
def check_rate_limit (resp : Option HttpResponse) : Option CheckResult :=
  match resp with
  | none => none
  | some r =>
    match extractPair r with
    | Except.error _ => none
    | Except.ok (rem, lim) =>
      match computeResult rem lim with
      | Except.error _ => none
      | Except.ok res => res

/-- The alert decision `usage >= config['threshold']` (monitor.py line 182). -/
def alertTriggered (usage threshold : ℚ) : Bool :=
  decide (threshold ≤ usage)

/-- The critical severity marker (monitor.py lines 136 and 158). -/
def criticalMarker : String := "🚨"

/-- The warning severity marker (monitor.py lines 136 and 158). -/
def warningMarker : String := "⚠️"

/-- The severity marker choice `"🚨" if usage >= 0.95 else "⚠️"`
(monitor.py lines 136 and 158). -/
def severityMarker (usage : ℚ) : String :=
  if 95 / 100 ≤ usage then criticalMarker else warningMarker

/-- Outcome of `slack_client.chat_postMessage` (an external collaborator):
delivered, a raised `SlackApiError`, or some other raised exception (e.g. a
network-level error from the underlying HTTP client). -/
inductive SlackOutcome where
  | delivered
  | apiError (msg : String)
  | otherError (msg : String)

/-- `send_slack_alert` (monitor.py lines 130-148), reduced to its control
flow: `configured` is `slack_client and slack_channel`; the `try/except`
catches only `SlackApiError` and prints the cause, so any other raised
exception escapes the function (`Except.error`).  The returned list holds the
log lines printed. -/
def send_slack_alert (configured : Bool) (outcome : SlackOutcome) :
    Except String (List String) :=
  if configured then
    match outcome with
    | SlackOutcome.delivered => Except.ok []
    | SlackOutcome.apiError e => Except.ok ["❌ Slack error: " ++ e]
    | SlackOutcome.otherError e => Except.error e
  else Except.ok []

/-- `send_discord_alert` (monitor.py lines 150-166): `configured` is
`discord_client and discord_channel_id`; the `try/except Exception` catches
every raised exception and prints the cause, so nothing escapes.  The
argument is the outcome of the guarded block (channel lookup plus send). -/
def send_discord_alert (configured : Bool) (outcome : Except String Unit) :
    List String :=
  if configured then
    match outcome with
    | Except.ok _ => []
    | Except.error e => ["❌ Discord error: " ++ e]
  else []

/-- The two alert calls made in sequence by `check_all_apis`
(monitor.py lines 184-185): an exception escaping `send_slack_alert` skips
the Discord attempt and propagates. -/
def dispatchAlerts (slackCfg : Bool) (so : SlackOutcome)
    (discordCfg : Bool) (dout : Except String Unit) :
    Except String (List String) :=
  match send_slack_alert slackCfg so with
  | Except.error e => Except.error e
  | Except.ok l1 => Except.ok (l1 ++ send_discord_alert discordCfg dout)

/-- One entry of `self.apis` (monitor.py lines 62-69).  Every field is always
present in the stored dict; `none` models the Python value `None`.  The
last-seen values are stored exactly as extracted, hence raw JSON values. -/
structure TargetConfig where
  endpoint : String
  headers : List (String × String)
  threshold : ℚ
  last_check : Option String
  last_remaining : Option Json
  last_limit : Option Json

/-- Python dict assignment `apis[name] = cfg`: replace in place when the key
is present (keeping its position), append otherwise. -/
def dictSet (apis : List (String × TargetConfig)) (name : String)
    (cfg : TargetConfig) : List (String × TargetConfig) :=
  if apis.any (fun p => p.1 == name) then
    apis.map (fun p => if p.1 == name then (p.1, cfg) else p)
  else apis ++ [(name, cfg)]

/-- The fresh entry built by `add_api` (monitor.py lines 62-69): last-seen
fields reset to `None`. -/
def newConfig (endpoint : String) (headers : List (String × String))
    (threshold : ℚ) : TargetConfig :=
  ⟨endpoint, headers, threshold, none, none, none⟩

/-- `add_api` (monitor.py lines 60-71); the `save_apis` persistence call is
modelled separately. -/
def add_api (apis : List (String × TargetConfig)) (name endpoint : String)
    (headers : List (String × String)) (threshold : ℚ) :
    List (String × TargetConfig) :=
  dictSet apis name (newConfig endpoint headers threshold)

/-- `remove_api` (monitor.py lines 73-80): delete the entry when present,
leave the registry unchanged (and report not-found) otherwise. -/
def remove_api (apis : List (String × TargetConfig)) (name : String) :
    List (String × TargetConfig) :=
  apis.filter (fun p => p.1 != name)

/-- The external collaborators of one pass of `check_all_apis`: the per-name
fetch outcome (`none` = the fetch raised), the current timestamp, and the
per-name alert-channel configuration and delivery outcomes. -/
structure PassEnv where
  fetch : String → Option HttpResponse
  now : String
  slackCfg : Bool
  discordCfg : Bool
  slackOut : String → SlackOutcome
  discordOut : String → Except String Unit

/-- The body of the `check_all_apis` loop for one target
(monitor.py lines 170-187): on a successful check the last-seen fields are
updated first, then the threshold comparison decides whether to dispatch
alerts; on a `None` check result the config is left untouched. -/
def processTarget (env : PassEnv) (name : String) (cfg : TargetConfig) :
    Except String TargetConfig :=
  match check_rate_limit (env.fetch name) with
  | none => Except.ok cfg
  | some res =>
    let cfg2 : TargetConfig :=
      { cfg with
        last_check := some env.now,
        last_remaining := some res.remaining,
        last_limit := some res.limit }
    if alertTriggered res.usage cfg.threshold then
      match dispatchAlerts env.slackCfg (env.slackOut name)
          env.discordCfg (env.discordOut name) with
      | Except.error e => Except.error e
      | Except.ok _ => Except.ok cfg2
    else Except.ok cfg2

/-- `check_all_apis` (monitor.py lines 168-189): one sequential pass over the
registry in iteration order.  An uncaught exception (only possible from the
Slack dispatch) aborts the rest of the pass. -/
def check_all_apis (env : PassEnv) :
    List (String × TargetConfig) → Except String (List (String × TargetConfig))
  | [] => Except.ok []
  | (name, cfg) :: rest =>
    match processTarget env name cfg with
    | Except.error e => Except.error e
    | Except.ok cfg2 =>
      match check_all_apis env rest with
      | Except.error e => Except.error e
      | Except.ok r => Except.ok ((name, cfg2) :: r)

/-- The registry invariant stated by the spec (§3): threshold in `[0,1]`,
non-empty unique names, and `last_remaining ≤ last_limit` when both are
present (as numbers). -/
def registryInvariant (apis : List (String × TargetConfig)) : Prop :=
  (∀ p ∈ apis, 0 ≤ p.2.threshold ∧ p.2.threshold ≤ 1 ∧ p.1 ≠ "")
  ∧ (apis.map Prod.fst).Nodup
  ∧ (∀ p ∈ apis, ∀ r l : ℚ,
      p.2.last_remaining = some (Json.num r) →
      p.2.last_limit = some (Json.num l) → r ≤ l)

/-- Encoding of one config entry into the persisted document
(§6 persisted-state shape; `save_apis`, monitor.py lines 55-58, serializes
the dict as-is, each field always present, `None` as JSON `null`). -/
def configToJson (c : TargetConfig) : Json :=
  Json.obj
    [("endpoint", Json.str c.endpoint),
     ("headers", Json.obj (c.headers.map (fun p => (p.1, Json.str p.2)))),
     ("threshold", Json.num c.threshold),
     ("last_check", (c.last_check.map Json.str).getD Json.null),
     ("last_remaining", c.last_remaining.getD Json.null),
     ("last_limit", c.last_limit.getD Json.null)]

/-- `save_apis` (monitor.py lines 55-58), modelled at the JSON-document
level: the produced value is what `json.dump` writes; the text layer of
`json.dump`/`json.load` is the file collaborator and is not re-modelled. -/
def save_apis (apis : List (String × TargetConfig)) : Json :=
  Json.obj (apis.map (fun p => (p.1, configToJson p.2)))

/-- Decoding a nullable stored value: JSON `null` is Python `None`. -/
def decodeNullable (j : Json) : Option Json :=
  match j with
  | Json.null => none
  | v => some v

/-- Decoding the `last_check` field: `null` or a string. -/
def decodeOptStr (j : Json) : Option (Option String) :=
  match j with
  | Json.null => some none
  | Json.str s => some (some s)
  | _ => none

/-- Decoding the `headers` mapping: every value must be a string. -/
def decodeHeaders : List (String × Json) → Option (List (String × String))
  | [] => some []
  | (k, Json.str v) :: rest => (decodeHeaders rest).map (fun r => (k, v) :: r)
  | _ => none

/-- Decoding one config entry of the persisted document. -/
def configFromJson (j : Json) : Option TargetConfig :=
  match j with
  | Json.obj f =>
    match jfind f "endpoint", jfind f "headers", jfind f "threshold",
        jfind f "last_check", jfind f "last_remaining", jfind f "last_limit" with
    | some (Json.str e), some (Json.obj hs), some (Json.num t),
        some lc, some lr, some ll =>
      match decodeHeaders hs, decodeOptStr lc with
      | some hdrs, some lcv =>
        some ⟨e, hdrs, t, lcv, decodeNullable lr, decodeNullable ll⟩
      | _, _ => none
    | _, _, _, _, _, _ => none
  | _ => none

/-- Decoding the entries of the persisted top-level object. -/
def decodeEntries : List (String × Json) → Option (List (String × TargetConfig))
  | [] => some []
  | (n, cj) :: rest =>
    match configFromJson cj, decodeEntries rest with
    | some c, some r => some ((n, c) :: r)
    | _, _ => none

/-- `load_apis` (monitor.py lines 48-53), modelled at the JSON-document
level: the argument is the document `json.load` decoded from `apis.json`. -/
def load_apis (doc : Json) : Option (List (String × TargetConfig)) :=
  match doc with
  | Json.obj fs => decodeEntries fs
  | _ => none

/-! ## Concrete instances used by witnesses and counterexamples -/

/-- A pass environment in which every fetch fails and both alert channels
are disabled. -/
def envW : PassEnv :=
  ⟨fun _ => none, "2024-01-01T00:00:00", false, false,
   fun _ => SlackOutcome.delivered, fun _ => Except.ok ()⟩

/-- A plain target configuration. -/
def cfgW : TargetConfig := newConfig "https://api.example.com" [] (95 / 100)

/-- A response whose first header pair is present but whose remaining value
is not an integer (`int()` raises). -/
def respBadW : HttpResponse :=
  ⟨[("X-RateLimit-Remaining", "abc"), ("X-RateLimit-Limit", "5")], Except.error ()⟩

/-- A `rate` object carrying both fields. -/
def rateObjW : List (String × Json) :=
  [("remaining", Json.num 1), ("limit", Json.num 5)]

/-- A `rate` object lacking `remaining`. -/
def rateLackW : List (String × Json) := [("limit", Json.num 5)]

/-- A `resources` mapping with one complete entry. -/
def resourcesW : List (String × Json) :=
  [("core", Json.obj [("remaining", Json.num 2), ("limit", Json.num 60)])]

/-- A one-target registry with well-formed persisted fields. -/
def regW : List (String × TargetConfig) :=
  [("github",
    ⟨"https://api.github.com/rate_limit", [("Authorization", "token x")],
     9 / 10, some "2024-01-01T00:00:00", some (Json.num 10), some (Json.num 100)⟩)]

/-- A response answering `0` of `100` remaining through the first header
pair. -/
def respGoodW : HttpResponse :=
  ⟨[("X-RateLimit-Remaining", "0"), ("X-RateLimit-Limit", "100")], Except.error ()⟩

/-- The check result `respGoodW` produces. -/
def crGoodW : CheckResult :=
  ⟨Json.num ((0 : Int) : ℚ), Json.num ((100 : Int) : ℚ),
   computeUsage ((0 : Int) : ℚ) ((100 : Int) : ℚ)⟩

/-! ## Helper lemmas -/

/-- The header loop realizes first-match-wins over any variant list: its
result is determined by the first pair whose two headers are both present. -/
lemma tryHeaderVariants_eq_find (hs : List (String × String))
    (vs : List (String × String)) :
    tryHeaderVariants hs vs =
      match vs.find? (fun p => (hlookup hs p.1).isSome && (hlookup hs p.2).isSome) with
      | some pr => parseIntPair ((hlookup hs pr.1).getD "") ((hlookup hs pr.2).getD "")
      | none => Except.ok none := by
  induction vs with
  | nil => rfl
  | cons v rest ih =>
    obtain ⟨rh, lh⟩ := v
    cases h1 : hlookup hs rh with
    | some rs =>
      cases h2 : hlookup hs lh with
      | some ls => simp [tryHeaderVariants, h1, h2, List.find?_cons]
      | none => simp [tryHeaderVariants, h1, h2, List.find?_cons, ih]
    | none =>
      cases h2 : hlookup hs lh with
      | some ls => simp [tryHeaderVariants, h1, h2, List.find?_cons, ih]
      | none => simp [tryHeaderVariants, h1, h2, List.find?_cons, ih]

/-! ## Claims -/

/-- C1: for every integer pair `(remaining, limit)`, the usage expression
computes `(limit - remaining) / limit` when `limit > 0` and `0` when
`limit ≤ 0` (total, no division error), and whenever
`0 ≤ remaining ≤ limit` the computed usage lies in `[0, 1]`. -/
theorem c1 (remaining limit : Int) :
    (0 < limit →
      computeUsage (remaining : ℚ) (limit : ℚ) =
        ((limit : ℚ) - (remaining : ℚ)) / (limit : ℚ))
    ∧ (limit ≤ 0 → computeUsage (remaining : ℚ) (limit : ℚ) = 0)
    ∧ (0 ≤ remaining → remaining ≤ limit →
        0 ≤ computeUsage (remaining : ℚ) (limit : ℚ)
        ∧ computeUsage (remaining : ℚ) (limit : ℚ) ≤ 1) := by
  refine ⟨?_, ?_, ?_⟩
  · intro h
    have hq : (0 : ℚ) < (limit : ℚ) := by exact_mod_cast h
    simp [computeUsage, hq]
  · intro h
    have hq : ¬ (0 : ℚ) < (limit : ℚ) := by
      simpa using (by exact_mod_cast h : (limit : ℚ) ≤ 0)
    simp [computeUsage, hq]
  · intro h1 h2
    by_cases hq : (0 : ℚ) < (limit : ℚ)
    · have hr0 : (0 : ℚ) ≤ (remaining : ℚ) := by exact_mod_cast h1
      have hrl : (remaining : ℚ) ≤ (limit : ℚ) := by exact_mod_cast h2
      constructor
      · simp only [computeUsage, if_pos hq]
        exact div_nonneg (by linarith) (le_of_lt hq)
      · simp only [computeUsage, if_pos hq]
        rw [div_le_one hq]
        linarith
    · simp [computeUsage, hq]

/-- Witness for C1 at `(remaining, limit) = (25, 100)` and `(3, 0)`. -/
theorem c1_witness :
    computeUsage ((25 : Int) : ℚ) ((100 : Int) : ℚ) =
      (((100 : Int) : ℚ) - ((25 : Int) : ℚ)) / ((100 : Int) : ℚ)
    ∧ computeUsage ((3 : Int) : ℚ) ((0 : Int) : ℚ) = 0
    ∧ (0 ≤ computeUsage ((25 : Int) : ℚ) ((100 : Int) : ℚ)
        ∧ computeUsage ((25 : Int) : ℚ) ((100 : Int) : ℚ) ≤ 1) :=
  ⟨(c1 25 100).1 (by norm_num), (c1 3 0).2.1 (by norm_num),
   (c1 25 100).2.2 (by norm_num) (by norm_num)⟩

/-- C2: the extractor tries exactly the three header-name pairs of
`headerVariants` in their fixed order and returns the integer-parsed values
of the first pair whose two headers are both present (no merging across
pairs); in particular the mapping
`{X-RateLimit-Remaining: 10, X-RateLimit-Limit: 100,
RateLimit-Remaining: 5, RateLimit-Limit: 50}` extracts to `(10, 100)`. -/
theorem c2 :
    (∀ hs : List (String × String),
      tryHeaderVariants hs headerVariants =
        match headerVariants.find?
            (fun p => (hlookup hs p.1).isSome && (hlookup hs p.2).isSome) with
        | some pr => parseIntPair ((hlookup hs pr.1).getD "") ((hlookup hs pr.2).getD "")
        | none => Except.ok none)
    ∧ tryHeaderVariants
        [("X-RateLimit-Remaining", "10"), ("X-RateLimit-Limit", "100"),
         ("RateLimit-Remaining", "5"), ("RateLimit-Limit", "50")]
        headerVariants = Except.ok (some (10, 100)) :=
  ⟨fun hs => tryHeaderVariants_eq_find hs headerVariants, by rfl⟩

/-- C4: an alert is triggered exactly when `usage ≥ threshold` (inclusive),
and the severity marker of a message is the critical one exactly when
`usage ≥ 0.95`, the warning one exactly when `usage < 0.95`. -/
theorem c4 (usage threshold : ℚ) :
    (alertTriggered usage threshold = true ↔ threshold ≤ usage)
    ∧ (severityMarker usage = criticalMarker ↔ 95 / 100 ≤ usage)
    ∧ (severityMarker usage = warningMarker ↔ usage < 95 / 100) := by
  have hne : criticalMarker ≠ warningMarker := by decide
  refine ⟨by simp [alertTriggered], ?_, ?_⟩
  · by_cases h : (95 : ℚ) / 100 ≤ usage
    · simp [severityMarker, h]
    · simp [severityMarker, h, Ne.symm hne]
  · by_cases h : (95 : ℚ) / 100 ≤ usage
    · simp [severityMarker, h, hne, not_lt.mpr h]
    · simp [severityMarker, h, lt_of_not_le h]

/-- Witness for C2: a second-pair-only mapping resolves through the fixed
order to the `RateLimit-` pair. -/
theorem c2_witness :
    tryHeaderVariants [("RateLimit-Remaining", "7"), ("RateLimit-Limit", "9")]
      headerVariants = Except.ok (some (7, 9)) :=
  (c2.1 [("RateLimit-Remaining", "7"), ("RateLimit-Limit", "9")]).trans (by rfl)

/-- Witness for C4 at `usage = 0.96`, `threshold = 0.9`. -/
theorem c4_witness :
    alertTriggered (96 / 100) (9 / 10) = true
    ∧ severityMarker (96 / 100) = criticalMarker :=
  ⟨((c4 (96 / 100) (9 / 10)).1).mpr (by norm_num),
   ((c4 (96 / 100) (9 / 10)).2.1).mpr (by norm_num)⟩

/-- C3: when no header pair matched, the JSON body is consulted only when
the content type indicates JSON (otherwise the check result is `None` for
every body); a top-level `rate` object determines the extracted values
regardless of any `resources` field (`rate` takes precedence); when `rate`
is absent and `resources` is a top-level object, its values are scanned,
taking the first one containing both `remaining` and `limit`. -/
theorem c3 :
    (∀ (hs : List (String × String)) (b : Except Unit Json),
      tryHeaderVariants hs headerVariants = Except.ok none →
      strStartsWith (getContentType hs) "application/json" = false →
      check_rate_limit (some ⟨hs, b⟩) = none)
    ∧ (∀ (data r : List (String × Json)),
        jfind data "rate" = some (Json.obj r) →
        extractFromJson (Json.obj data) =
          Except.ok (jget r "remaining", jget r "limit"))
    ∧ (∀ (data rs : List (String × Json)),
        jfind data "rate" = none →
        jfind data "resources" = some (Json.obj rs) →
        extractFromJson (Json.obj data) = scanResources rs)
    ∧ (∀ (k : String) (v : List (String × Json))
        (rest : List (String × Json)),
        scanResources ((k, Json.obj v) :: rest) =
          if (jfind v "remaining").isSome && (jfind v "limit").isSome then
            Except.ok (jget v "remaining", jget v "limit")
          else scanResources rest) := by
  refine ⟨?_, ?_, ?_, ?_⟩
  · intro hs b h1 h2
    simp [check_rate_limit, extractPair, h1, h2, computeResult]
  · intro data r h
    simp [extractFromJson, pyContains, pyGetItem, pyGetAttr, h]
  · intro data rs h1 h2
    simp [extractFromJson, pyContains, pyGetItem, pyGetAttr, h1, h2]
  · intro k v rest
    by_cases hr : (jfind v "remaining").isSome
    · by_cases hl : (jfind v "limit").isSome
      · simp [scanResources, pyContains, pyGetAttr, hr, hl]
      · simp [scanResources, pyContains, pyGetAttr, hr, hl]
    · simp [scanResources, pyContains, pyGetAttr, hr]

/-- Witness for C3: a non-JSON content type yields `None`; with both shapes
present the `rate` values win; without `rate` the `resources` scan runs; the
scan keeps the first complete value. -/
theorem c3_witness :
    check_rate_limit (some ⟨[("Content-Type", "text/html")], Except.error ()⟩) = none
    ∧ extractFromJson
        (Json.obj [("rate", Json.obj rateObjW), ("resources", Json.obj resourcesW)]) =
        Except.ok (jget rateObjW "remaining", jget rateObjW "limit")
    ∧ extractFromJson (Json.obj [("resources", Json.obj resourcesW)]) =
        scanResources resourcesW
    ∧ scanResources (("core", Json.obj rateObjW) :: resourcesW) =
        (if (jfind rateObjW "remaining").isSome && (jfind rateObjW "limit").isSome then
          Except.ok (jget rateObjW "remaining", jget rateObjW "limit")
        else scanResources resourcesW) :=
  ⟨c3.1 [("Content-Type", "text/html")] (Except.error ()) rfl rfl,
   c3.2.1 [("rate", Json.obj rateObjW), ("resources", Json.obj resourcesW)] rateObjW rfl,
   c3.2.2.1 [("resources", Json.obj resourcesW)] resourcesW rfl rfl,
   c3.2.2.2 "core" rateObjW resourcesW⟩

/-- C10: when no header pair matched, the content type indicates JSON, and
the body's top-level object has a `rate` key whose object value lacks
`remaining` or `limit`, the check returns `None` (not found); the extraction
result is determined by the `rate` object alone, so the `resources` shape is
never consulted as a fallback. -/
theorem c10 (hs : List (String × String)) (data r : List (String × Json))
    (hnh : tryHeaderVariants hs headerVariants = Except.ok none)
    (hct : strStartsWith (getContentType hs) "application/json" = true)
    (hrate : jfind data "rate" = some (Json.obj r))
    (hlack : jget r "remaining" = none ∨ jget r "limit" = none) :
    check_rate_limit (some ⟨hs, Except.ok (Json.obj data)⟩) = none
    ∧ extractFromJson (Json.obj data) =
        Except.ok (jget r "remaining", jget r "limit") := by
  have hx : extractFromJson (Json.obj data) =
      Except.ok (jget r "remaining", jget r "limit") := by
    simp [extractFromJson, pyContains, pyGetItem, pyGetAttr, hrate]
  refine ⟨?_, hx⟩
  rcases hlack with h | h
  · simp [check_rate_limit, extractPair, hnh, hct, hx, h, computeResult]
  · cases hv : jget r "remaining" with
    | none => simp [check_rate_limit, extractPair, hnh, hct, hx, hv, h, computeResult]
    | some v => simp [check_rate_limit, extractPair, hnh, hct, hx, hv, h, computeResult]

/-- Witness for C10: an incomplete `rate` object produces `None` even though
a complete `resources` entry is present in the same body. -/
theorem c10_witness :
    check_rate_limit
      (some ⟨[("Content-Type", "application/json")],
        Except.ok (Json.obj
          [("rate", Json.obj rateLackW), ("resources", Json.obj resourcesW)])⟩) = none
    ∧ extractFromJson
        (Json.obj [("rate", Json.obj rateLackW), ("resources", Json.obj resourcesW)]) =
        Except.ok (jget rateLackW "remaining", jget rateLackW "limit") :=
  c10 [("Content-Type", "application/json")]
    [("rate", Json.obj rateLackW), ("resources", Json.obj resourcesW)]
    rateLackW rfl rfl rfl (Or.inl rfl)

/-- C6: a target whose fetch or extraction fails (network error, non-2xx,
timeout or JSON failure modelled as a `none` fetch outcome, an integer parse
error, or extraction not-found — all of which make `check_rate_limit` return
`None`) keeps its `last_check`, `last_remaining` and `last_limit` fields
unchanged, and the pass continues over the remaining targets exactly as if
the failing target were absent; raised extraction errors are contained
inside `check_rate_limit`. -/
theorem c6 (env : PassEnv) (name : String) (cfg : TargetConfig)
    (rest : List (String × TargetConfig))
    (hfail : check_rate_limit (env.fetch name) = none) :
    processTarget env name cfg = Except.ok cfg
    ∧ check_all_apis env ((name, cfg) :: rest) =
        Except.map (fun r => (name, cfg) :: r) (check_all_apis env rest)
    ∧ (∀ resp : HttpResponse, extractPair resp = Except.error () →
        check_rate_limit (some resp) = none) := by
  have h1 : processTarget env name cfg = Except.ok cfg := by
    simp [processTarget, hfail]
  refine ⟨h1, ?_, ?_⟩
  · simp only [check_all_apis, h1]
    cases h2 : check_all_apis env rest with
    | error e => simp [Except.map]
    | ok r => simp [Except.map]
  · intro resp hresp
    simp [check_rate_limit, hresp]

/-- Witness for C6: with every fetch failing, the first target's config is
untouched and the pass still processes the second target; a non-integer
header value is likewise contained. -/
theorem c6_witness :
    processTarget envW "a" cfgW = Except.ok cfgW
    ∧ check_all_apis envW [("a", cfgW), ("b", cfgW)] =
        Except.map (fun r => ("a", cfgW) :: r) (check_all_apis envW [("b", cfgW)])
    ∧ check_rate_limit (some respBadW) = none := by
  have h := c6 envW "a" cfgW [("b", cfgW)] rfl
  exact ⟨h.1, h.2.1, h.2.2 respBadW rfl⟩

/-- C5 counterexample: an exception other than `SlackApiError` raised during
Slack delivery escapes `send_slack_alert` (monitor.py line 147 catches only
`SlackApiError`), so "no exception raised during delivery escapes the
Notifier functions" fails at this input. -/
theorem c5_counterexample :
    send_slack_alert true (SlackOutcome.otherError "connection reset") =
      Except.error "connection reset" := rfl

/-- C5 (amended): a `SlackApiError` during Slack delivery and any exception
during Discord delivery are caught inside the respective notifier function
and logged with the underlying cause, and such a caught Slack failure does
not prevent attempting the Discord channel; however, an exception of any
other type during Slack delivery escapes `send_slack_alert` (and would skip
the Discord attempt). -/
theorem c5 (e : String) (cfg : Bool) :
    send_slack_alert cfg (SlackOutcome.apiError e) =
      Except.ok (if cfg then ["❌ Slack error: " ++ e] else [])
    ∧ send_discord_alert cfg (Except.error e) =
        (if cfg then ["❌ Discord error: " ++ e] else [])
    ∧ dispatchAlerts true (SlackOutcome.apiError e) true (Except.error e) =
        Except.ok ["❌ Slack error: " ++ e, "❌ Discord error: " ++ e]
    ∧ send_slack_alert true (SlackOutcome.otherError e) = Except.error e := by
  refine ⟨?_, ?_, rfl, rfl⟩
  · cases cfg <;> rfl
  · cases cfg <;> rfl

/-- Witness for C5 at a concrete cause string with both channels enabled. -/
theorem c5_witness :
    send_slack_alert true (SlackOutcome.apiError "rate_limited") =
      Except.ok (if true then ["❌ Slack error: " ++ "rate_limited"] else [])
    ∧ send_discord_alert true (Except.error "rate_limited") =
        (if true then ["❌ Discord error: " ++ "rate_limited"] else [])
    ∧ dispatchAlerts true (SlackOutcome.apiError "rate_limited") true
        (Except.error "rate_limited") =
        Except.ok ["❌ Slack error: " ++ "rate_limited",
                   "❌ Discord error: " ++ "rate_limited"]
    ∧ send_slack_alert true (SlackOutcome.otherError "rate_limited") =
        Except.error "rate_limited" :=
  c5 "rate_limited" true

/-- Every `Except.ok (some _)` outcome of the result construction carries a
numeric limit, with the usage formula applied when the limit is positive and
the `0` floor otherwise. -/
lemma computeResult_ok_some (rem lim : Option Json) (cr : CheckResult)
    (h : computeResult rem lim = Except.ok (some cr)) :
    ∃ ln : ℚ, cr.limit = Json.num ln
      ∧ (0 < ln → ∃ rn : ℚ, cr.remaining = Json.num rn ∧ cr.usage = (ln - rn) / ln)
      ∧ (ln ≤ 0 → cr.usage = 0) := by
  cases rem with
  | none => simp [computeResult] at h
  | some r =>
    cases lim with
    | none => simp [computeResult] at h
    | some l =>
      cases l with
      | null => simp [computeResult] at h
      | str s => simp [computeResult] at h
      | obj f => simp [computeResult] at h
      | num ln =>
        refine ⟨ln, ?_⟩
        by_cases hq : 0 < ln
        · cases r with
          | null => simp [computeResult, hq] at h
          | str s => simp [computeResult, hq] at h
          | obj f => simp [computeResult, hq] at h
          | num rn =>
            simp only [computeResult, if_pos hq] at h
            have hcr : cr = ⟨Json.num rn, Json.num ln, computeUsage rn ln⟩ := by
              injection h with h'
              exact (Option.some.inj h').symm
            subst hcr
            refine ⟨rfl, ?_, ?_⟩
            · intro _
              exact ⟨rn, rfl, by simp [computeUsage, hq]⟩
            · intro hle
              exact absurd hq (not_lt.mpr hle)
        · simp only [computeResult, if_neg hq] at h
          have hcr : cr = ⟨r, Json.num ln, 0⟩ := by
            injection h with h'
            exact (Option.some.inj h').symm
          subst hcr
          exact ⟨rfl, fun hpos => absurd hpos hq, fun _ => rfl⟩

/-- C7 counterexample: a JSON body `{"rate": {"remaining": 2.5, "limit": 0}}`
yields a check result whose remaining value is not an integer and whose
limit is not positive, so the claimed `remaining ≥ 0` / `limit > 0` bounds
fail. -/
theorem c7_counterexample :
    ¬ (∀ (resp : Option HttpResponse) (cr : CheckResult),
        check_rate_limit resp = some cr →
        (∃ r : Int, cr.remaining = Json.num (r : ℚ) ∧ 0 ≤ r)
        ∧ (∃ l : Int, cr.limit = Json.num (l : ℚ) ∧ 0 < l)) := by
  intro hclaim
  have h := hclaim
    (some ⟨[("Content-Type", "application/json")],
      Except.ok (Json.obj [("rate",
        Json.obj [("remaining", Json.num (5 / 2)), ("limit", Json.num 0)])])⟩)
    ⟨Json.num (5 / 2), Json.num 0, 0⟩ rfl
  obtain ⟨-, l, hl, hlpos⟩ := h
  simp only [Json.num.injEq] at hl
  have hz : l = 0 := by exact_mod_cast hl.symm
  omega

/-- C7 (amended): every check result has a numeric limit; when that limit is
positive the remaining value is numeric and the usage equals
`(limit - remaining) / limit`, and when the limit is non-positive the usage
is `0`.  No sign, positivity or integrality constraint on the extracted
values is enforced. -/
theorem c7 (resp : Option HttpResponse) (cr : CheckResult)
    (h : check_rate_limit resp = some cr) :
    ∃ ln : ℚ, cr.limit = Json.num ln
      ∧ (0 < ln → ∃ rn : ℚ, cr.remaining = Json.num rn ∧ cr.usage = (ln - rn) / ln)
      ∧ (ln ≤ 0 → cr.usage = 0) := by
  cases resp with
  | none => simp [check_rate_limit] at h
  | some r =>
    simp only [check_rate_limit] at h
    cases h1 : extractPair r with
    | error e => rw [h1] at h; simp at h
    | ok pr =>
      obtain ⟨rem, lim⟩ := pr
      rw [h1] at h
      simp only at h
      cases h2 : computeResult rem lim with
      | error e => rw [h2] at h; simp at h
      | ok res =>
        rw [h2] at h
        simp only at h
        subst h
        exact computeResult_ok_some rem lim cr h2

/-- Witness for C7 at a header response answering 0 of 100 remaining. -/
theorem c7_witness :
    ∃ ln : ℚ, crGoodW.limit = Json.num ln
      ∧ (0 < ln → ∃ rn : ℚ, crGoodW.remaining = Json.num rn
          ∧ crGoodW.usage = (ln - rn) / ln)
      ∧ (ln ≤ 0 → crGoodW.usage = 0) :=
  c7 (some respGoodW) crGoodW rfl

/-- The keys of a `dictSet` update: unchanged on overwrite, the new key
appended on insert. -/
lemma dictSet_map_fst (apis : List (String × TargetConfig)) (n : String)
    (c : TargetConfig) :
    (dictSet apis n c).map Prod.fst =
      if apis.any (fun p => p.1 == n) then apis.map Prod.fst
      else apis.map Prod.fst ++ [n] := by
  unfold dictSet
  split
  · rw [List.map_map]
    apply List.map_congr_left
    intro p _
    by_cases hp : p.1 = n
    · simp [hp]
    · simp [hp]
  · simp

/-- A successful pass returns a registry with exactly the same keys in the
same order. -/
lemma check_all_apis_map_fst (env : PassEnv) :
    ∀ (apis r : List (String × TargetConfig)),
      check_all_apis env apis = Except.ok r →
      r.map Prod.fst = apis.map Prod.fst := by
  intro apis
  induction apis with
  | nil =>
    intro r h
    simp only [check_all_apis] at h
    injection h with h
    subst h
    rfl
  | cons p rest ih =>
    intro r h
    obtain ⟨name, cfg⟩ := p
    simp only [check_all_apis] at h
    cases h1 : processTarget env name cfg with
    | error e => rw [h1] at h; simp at h
    | ok cfg2 =>
      rw [h1] at h
      cases h2 : check_all_apis env rest with
      | error e => rw [h2] at h; simp at h
      | ok r2 =>
        rw [h2] at h
        simp only at h
        injection h with h
        subst h
        simp [ih r2 h2]

/-- C8 counterexample: `add_api` stores the given threshold and name without
validation, so inserting an empty name with threshold `2` into a registry
satisfying the invariant produces a registry violating it. -/
theorem c8_counterexample :
    registryInvariant []
    ∧ ¬ registryInvariant (add_api [] "" "https://e" [] 2) := by
  constructor
  · exact ⟨by simp, by simp, by simp⟩
  · intro h
    have hm : ("", newConfig "https://e" [] 2) ∈ add_api [] "" "https://e" [] 2 := by
      simp [add_api, dictSet, newConfig]
    exact (h.1 _ hm).2.2 rfl

/-- C8 (amended): `add_api`, `remove_api` and a successful pass of
`check_all_apis` preserve the uniqueness of target names (and the pass keeps
the key list unchanged); the threshold range, name non-emptiness and the
`last_remaining ≤ last_limit` relation are not enforced by the code —
thresholds, names and extracted values are stored as given. -/
theorem c8 (apis : List (String × TargetConfig))
    (h : (apis.map Prod.fst).Nodup) :
    (∀ (name endpoint : String) (hdrs : List (String × String)) (t : ℚ),
      ((add_api apis name endpoint hdrs t).map Prod.fst).Nodup)
    ∧ (∀ name : String, ((remove_api apis name).map Prod.fst).Nodup)
    ∧ (∀ (env : PassEnv) (r : List (String × TargetConfig)),
        check_all_apis env apis = Except.ok r →
        r.map Prod.fst = apis.map Prod.fst ∧ (r.map Prod.fst).Nodup) := by
  refine ⟨?_, ?_, ?_⟩
  · intro name endpoint hdrs t
    rw [add_api, dictSet_map_fst]
    split
    · exact h
    · rename_i hany
      have hnmem : name ∉ apis.map Prod.fst := by
        intro hmem
        obtain ⟨p, hp, hp1⟩ := List.mem_map.mp hmem
        exact hany (List.any_eq_true.mpr ⟨p, hp, by simp [hp1]⟩)
      simp [List.nodup_append, h, hnmem]
  · intro name
    have hsub : ((apis.filter (fun p => p.1 != name)).map Prod.fst).Sublist
        (apis.map Prod.fst) :=
      List.Sublist.map Prod.fst (List.filter_sublist apis)
    exact List.Nodup.sublist hsub h
  · intro env r hr
    have hk := check_all_apis_map_fst env apis r hr
    exact ⟨hk, hk ▸ h⟩

/-- Witness for C8 on the concrete registry `regW`. -/
theorem c8_witness :
    ((add_api regW "x" "https://e" [] (1 / 2)).map Prod.fst).Nodup
    ∧ ((remove_api regW "github").map Prod.fst).Nodup
    ∧ (regW.map Prod.fst = regW.map Prod.fst ∧ (regW.map Prod.fst).Nodup) := by
  have h := c8 regW (by simp [regW])
  exact ⟨h.1 "x" "https://e" [] (1 / 2), h.2.1 "github", h.2.2 envW regW rfl⟩

/-- The encoded request-header mapping decodes to itself. -/
lemma decodeHeaders_roundtrip (hs : List (String × String)) :
    decodeHeaders (hs.map (fun p => (p.1, Json.str p.2))) = some hs := by
  induction hs with
  | nil => rfl
  | cons p rest ih => simp [decodeHeaders, ih]

/-- The encoded `last_check` field decodes to itself. -/
lemma decodeOptStr_roundtrip (o : Option String) :
    decodeOptStr ((o.map Json.str).getD Json.null) = some o := by
  cases o <;> rfl

/-- An encoded nullable value other than a stored literal `null` decodes to
itself. -/
lemma decodeNullable_getD (o : Option Json) (h : o ≠ some Json.null) :
    decodeNullable (o.getD Json.null) = o := by
  cases o with
  | none => rfl
  | some v =>
    cases v with
    | null => exact absurd rfl h
    | num q => rfl
    | str s => rfl
    | obj f => rfl

/-- One encoded config entry decodes to itself. -/
lemma configFromJson_roundtrip (c : TargetConfig)
    (h1 : c.last_remaining ≠ some Json.null)
    (h2 : c.last_limit ≠ some Json.null) :
    configFromJson (configToJson c) = some c := by
  obtain ⟨e, hs, t, lc, lr, ll⟩ := c
  simp [configToJson, configFromJson, jfind, decodeHeaders_roundtrip,
        decodeOptStr_roundtrip, decodeNullable_getD _ h1, decodeNullable_getD _ h2]

/-- The encoded entry list decodes to itself. -/
lemma decodeEntries_roundtrip (apis : List (String × TargetConfig))
    (h : ∀ p ∈ apis,
      p.2.last_remaining ≠ some Json.null ∧ p.2.last_limit ≠ some Json.null) :
    decodeEntries (apis.map (fun p => (p.1, configToJson p.2))) = some apis := by
  induction apis with
  | nil => rfl
  | cons p rest ih =>
    have hp := h p (List.mem_cons_self p rest)
    have hr : ∀ q ∈ rest,
        q.2.last_remaining ≠ some Json.null ∧ q.2.last_limit ≠ some Json.null :=
      fun q hq => h q (List.mem_cons_of_mem p hq)
    simp [decodeEntries, configFromJson_roundtrip p.2 hp.1 hp.2, ih hr]

/-- C9: `save` followed by `load` reproduces the registry exactly — same
target names in order and equal values of every field — for every registry
whose stored optional values are not the literal JSON `null` (the only
values the code ever stores). -/
theorem c9 (apis : List (String × TargetConfig))
    (h : ∀ p ∈ apis,
      p.2.last_remaining ≠ some Json.null ∧ p.2.last_limit ≠ some Json.null) :
    load_apis (save_apis apis) = some apis := by
  simp [load_apis, save_apis, decodeEntries_roundtrip apis h]

/-- Witness for C9 on the concrete registry `regW`. -/
theorem c9_witness : load_apis (save_apis regW) = some regW :=
  c9 regW (by simp [regW])

end RateLimitMonitor
